import Mathlib

/-!
Shallow embedding of the BurntSushi controller (src/burnt-sushi/src/main.rs).

The embedding models the hook lifecycle of `AppState` (`hook_spotify`,
`unhook_spotify`), the stale-injection cleanup loop inside `hook_spotify`,
and the layered resolvers `find_and_load_filter_config` and
`find_and_load_blocker`.  External effects (syringe calls, the file system,
TOML parsing) are supplied by explicit environment records; each modelled
operation returns, besides its value, a trace of the external calls it
performed, and a result flag distinguishing normal completion from a Rust
panic (an `unwrap`/`todo!` firing).
-/

namespace BurntSushi

abbrev Path := String
abbrev ModuleHandle := Nat
abbrev SocketAddr := Nat

/-- `dll_syringe::error::SyringeError`, reduced to the constructors the
controller distinguishes: the two benign "already gone" errors and all
others. -/
inductive SyringeError where
  | ProcessInaccessible
  | ModuleInaccessible
  | other : Nat → SyringeError
deriving DecidableEq, Repr

/-- `std::io::ErrorKind`, reduced to the kinds `main.rs` constructs. -/
inductive IoErrorKind where
  | NotFound
  | InvalidData
  | Other
deriving DecidableEq, Repr

/-- `FilterConfig` (main.rs line 471): the allowlist/denylist pair
deserialized from the filter TOML. -/
structure FilterConfig where
  allowlist : List String
  denylist : List String
deriving DecidableEq, Repr

/-- `HookState` (main.rs line 177): the resources of one active hook.  The
`Syringe` is represented by the pid of the process it targets, the payload
module and the rpc task by handles. -/
structure HookState where
  pid : Nat
  payload : ModuleHandle
  rpcTask : Nat
deriving DecidableEq, Repr

/-- `AppState` (main.rs line 172). -/
inductive AppState where
  | Hooked : HookState → AppState
  | Unhooked
deriving DecidableEq, Repr

/-- External calls observable during `hook_spotify`/`unhook_spotify`. -/
inductive Event where
  | findModule : Option ModuleHandle → Event
  | getProc : String → Event
  | rpcCall : String → Event
  | logStopRpcError : Event
  | eject : ModuleHandle → Event
  | joinTask : Event
  | checkAlive : Event
  | resolveFilterConfig : Event
  | resolveBlocker : Event
  | inject : Path → Event
  | spawnTask : Event
deriving DecidableEq, Repr

/-- File-system effects observable during `find_and_load_filter_config`. -/
inductive FsEvent where
  | readAttempt : Path → FsEvent
  | wroteDefault : Path → FsEvent
deriving DecidableEq, Repr

/-- How a modelled call ended: normal return, or a Rust panic escaping it. -/
inductive RunResult where
  | ok
  | panicked
deriving DecidableEq, Repr

/-- Outcome of one `hook_spotify`/`unhook_spotify` call: the value of
`self` when the call ends (normally or by panic), the external calls it
made paired with the value `self` held while each call was in flight, and
whether it panicked. -/
structure Run where
  state : AppState
  trace : List (Event × AppState)
  result : RunResult
deriving DecidableEq, Repr

/-- Tags every event with `AppState.Unhooked` as the in-flight state. -/
def tagUnhooked (es : List Event) : List (Event × AppState) :=
  es.map (fun e => (e, AppState.Unhooked))

/- ### Filter-config resolver (main.rs lines 407-468) -/

def DEFAULT_FILTER_FILE_NAME : String := "filter.toml"
def DEFAULT_BLOCKER_FILE_NAME : String := "BurntSushiBlocker_x86.dll"

/-- `path.parent().join(name)` for the sibling lookups. -/
def joinPath (dir name : Path) : Path := dir ++ "\\" ++ name

/-- Environment of `find_and_load_filter_config`: the cli argument, the
directory of the executable, and oracles for file reads, file creation and
TOML parsing. -/
structure FilterEnv where
  argsFilters : Option Path
  siblingDir : Option Path
  readFile : Path → Option String
  writeOk : Path → Bool
  parseToml : String → Option FilterConfig
  defaultFilterStr : String

/-- `try_load_filter_config_from_str` (main.rs line 436): TOML-parse the
string, warning and returning `InvalidData` on failure. -/
def try_load_filter_config_from_str (env : FilterEnv) (s : String) :
    Except IoErrorKind FilterConfig :=
  match env.parseToml s with
  | some filterConfig => Except.ok filterConfig
  | none => Except.error IoErrorKind.InvalidData

/-- `try_load_filter_config_from_path` (main.rs line 408): read and parse
the file at `path`; with `write_if_absent`, an unreadable file is replaced
by the bundled default (which is then parsed).  Also returns the
file-system effects performed. -/
def try_load_filter_config_from_path (env : FilterEnv) (path : Option Path)
    (write_if_absent : Bool) :
    Except IoErrorKind FilterConfig × List FsEvent :=
  match path with
  | some p =>
    match env.readFile p with
    | some contents => (try_load_filter_config_from_str env contents, [FsEvent.readAttempt p])
    | none =>
      if write_if_absent then
        if env.writeOk p then
          (try_load_filter_config_from_str env env.defaultFilterStr,
            [FsEvent.readAttempt p, FsEvent.wroteDefault p])
        else (Except.error IoErrorKind.Other, [FsEvent.readAttempt p])
      else (Except.error IoErrorKind.NotFound, [FsEvent.readAttempt p])
  | none => (try_load_filter_config_from_str env env.defaultFilterStr, [])

deriving instance DecidableEq for Except

/-- Result of the resolver: the returned `io::Result<FilterConfig>` plus
the file-system effects performed along the way. -/
structure FsRun where
  result : Except IoErrorKind FilterConfig
  events : List FsEvent
deriving DecidableEq, Repr

/-- The sibling-then-default tail of `find_and_load_filter_config`
(main.rs lines 456-467): look next to the executable (read-only), then
fall back to the bundled default. -/
def filter_config_sibling_then_default (env : FilterEnv) : FsRun :=
  match env.siblingDir with
  | some dir =>
    match try_load_filter_config_from_path env
        (some (joinPath dir DEFAULT_FILTER_FILE_NAME)) false with
    | (Except.ok filters, ev) => ⟨Except.ok filters, ev⟩
    | (Except.error _, ev) =>
      match try_load_filter_config_from_path env none false with
      | (r, ev2) => ⟨r, ev ++ ev2⟩
  | none =>
    match try_load_filter_config_from_path env none false with
    | (r, ev2) => ⟨r, ev2⟩

/-- `find_and_load_filter_config` (main.rs line 407): explicit override
path (create-if-absent), then the path beside the executable, then the
bundled default. -/
def find_and_load_filter_config (env : FilterEnv) : FsRun :=
  match env.argsFilters with
  | some configPath =>
    match try_load_filter_config_from_path env (some configPath) true with
    | (Except.ok filters, ev) => ⟨Except.ok filters, ev⟩
    | (Except.error _, ev) =>
      match filter_config_sibling_then_default env with
      | ⟨r, ev2⟩ => ⟨r, ev ++ ev2⟩
  | none => filter_config_sibling_then_default env

/- ### Blocker resolver (main.rs lines 337-405) -/

/-- Result of `tokio::fs::metadata`: whether the path names a file and its
length. -/
structure BlockerMeta where
  isFile : Bool
  len : Nat
deriving DecidableEq, Repr

/-- File-system oracle for one `try_load_blocker` call site: the metadata
answer at its path and whether `create_dir_all` + `write` succeed there. -/
structure BlockerProbe where
  metadata : Option BlockerMeta
  writeOk : Bool
deriving DecidableEq, Repr

/-- `try_load_blocker` (main.rs line 338): accept an existing file (size
checked when `check_len`), otherwise write the bundled payload when
`write_if_absent`, otherwise `NotFound`. -/
def try_load_blocker (payloadLen : Nat) (probe : BlockerProbe)
    (check_len write_if_absent : Bool) : Except IoErrorKind Unit :=
  let found : Bool :=
    match probe.metadata with
    | some m => m.isFile && (!check_len || m.len == payloadLen)
    | none => false
  if found then Except.ok ()
  else if write_if_absent then
    if probe.writeOk then Except.ok () else Except.error IoErrorKind.Other
  else Except.error IoErrorKind.NotFound

/-- Environment of `find_and_load_blocker`: the cli argument, the resolved
sibling and temp-dir paths, and a probe per call site. -/
structure BlockerEnv where
  argsBlocker : Option Path
  overrideProbe : BlockerProbe
  siblingPath : Option Path
  siblingProbe : BlockerProbe
  tempPath : Option Path
  tempProbe : BlockerProbe
  payloadLen : Nat
deriving DecidableEq, Repr

/-- `find_and_load_blocker` (main.rs line 337): cli path (create-if-absent),
then next to the executable (read-only), then the temp location
(size-checked, create-if-absent), else `NotFound`. -/
def find_and_load_blocker (env : BlockerEnv) : Except IoErrorKind Path :=
  let tempStep : Except IoErrorKind Path :=
    match env.tempPath with
    | some tempPath =>
      match try_load_blocker env.payloadLen env.tempProbe true true with
      | Except.ok _ => Except.ok tempPath
      | Except.error _ => Except.error IoErrorKind.NotFound
    | none => Except.error IoErrorKind.NotFound
  let siblingStep : Except IoErrorKind Path :=
    match env.siblingPath with
    | some siblingPath =>
      match try_load_blocker env.payloadLen env.siblingProbe false false with
      | Except.ok _ => Except.ok siblingPath
      | Except.error _ => tempStep
    | none => tempStep
  match env.argsBlocker with
  | some configPath =>
    match try_load_blocker env.payloadLen env.overrideProbe false true with
    | Except.ok _ => Except.ok configPath
    | Except.error _ => siblingStep
  | none => siblingStep

/- ### unhook_spotify (main.rs lines 295-335) -/

/-- Oracle results for the external calls `unhook_spotify` can make. -/
structure UnhookEnv where
  getStopRpc : Except SyringeError (Option Unit)
  stopRpcCall : Except SyringeError Unit
  joinOk : Bool
  isAlive : Bool
  ejectRes : Except SyringeError Unit
deriving DecidableEq, Repr

/-- The inner `async` block of `unhook_spotify` (main.rs lines 304-325):
look up `stop_rpc` (`?` on the lookup error, `unwrap` on a missing
procedure), call it (`?`), join the rpc task (`unwrap` on a task panic),
then eject only when the process is still alive (`?`).  Returns the events
performed and `none` when an `unwrap` panicked, otherwise the block's
`Result`. -/
def unhook_inner (env : UnhookEnv) (hs : HookState) :
    List Event × Option (Except SyringeError Unit) :=
  match env.getStopRpc with
  | Except.error e => ([Event.getProc "stop_rpc"], some (Except.error e))
  | Except.ok none => ([Event.getProc "stop_rpc"], none)
  | Except.ok (some _) =>
    match env.stopRpcCall with
    | Except.error e =>
      ([Event.getProc "stop_rpc", Event.rpcCall "stop_rpc"], some (Except.error e))
    | Except.ok _ =>
      if env.joinOk then
        if env.isAlive then
          match env.ejectRes with
          | Except.error e =>
            ([Event.getProc "stop_rpc", Event.rpcCall "stop_rpc", Event.joinTask,
              Event.checkAlive, Event.eject hs.payload], some (Except.error e))
          | Except.ok _ =>
            ([Event.getProc "stop_rpc", Event.rpcCall "stop_rpc", Event.joinTask,
              Event.checkAlive, Event.eject hs.payload], some (Except.ok ()))
        else
          ([Event.getProc "stop_rpc", Event.rpcCall "stop_rpc", Event.joinTask,
            Event.checkAlive], some (Except.ok ()))
      else
        ([Event.getProc "stop_rpc", Event.rpcCall "stop_rpc", Event.joinTask], none)

/-- The `match result` at main.rs lines 327-332: `Ok` and the two benign
syringe errors fall through; any other error hits `todo!` and panics. -/
def unhookResultOf : Option (Except SyringeError Unit) → RunResult
  | none => RunResult.panicked
  | some (Except.ok _) => RunResult.ok
  | some (Except.error SyringeError.ProcessInaccessible) => RunResult.ok
  | some (Except.error SyringeError.ModuleInaccessible) => RunResult.ok
  | some (Except.error (SyringeError.other _)) => RunResult.panicked

/-- `unhook_spotify` (main.rs line 295): `mem::replace(self, Unhooked)`
first, so a `Hooked` start is torn down with `self` already `Unhooked`;
an `Unhooked` start returns immediately.  The final `*self = Unhooked`
(line 334) is subsumed by the replace. -/
def unhook_spotify (env : UnhookEnv) (s : AppState) : Run :=
  match s with
  | AppState.Unhooked => ⟨AppState.Unhooked, [], RunResult.ok⟩
  | AppState.Hooked hs =>
    ⟨AppState.Unhooked, tagUnhooked (unhook_inner env hs).1,
      unhookResultOf (unhook_inner env hs).2⟩

/- ### hook_spotify (main.rs lines 224-293) -/

/-- Oracle results for one iteration of the stale-injection cleanup loop
(main.rs lines 232-257): the module handle the probe found, the `stop_rpc`
lookup result (double-`unwrap`ed), the `stop_rpc` call result (logged on
error), and the eject result (`unwrap`ed). -/
structure StaleIter where
  modHandle : ModuleHandle
  getStopRpc : Except SyringeError (Option Unit)
  stopCall : Except SyringeError Unit
  ejectRes : Except SyringeError Unit
deriving DecidableEq, Repr

/-- The stale-injection cleanup loop (main.rs lines 232-257): each probe
of `find_module_by_name` yields the next element of `stales` (then `none`).
Per iteration: look up `stop_rpc` (`unwrap().unwrap()` panics on
error/absence), call it (an error is logged, not fatal), then
`eject(..).unwrap()` (panics on error), then re-probe.  Returns the events
performed and `none` when an `unwrap` panicked. -/
def cleanupLoop : List StaleIter → List Event × Option Unit
  | [] => ([Event.findModule none], some ())
  | it :: rest =>
    match it.getStopRpc with
    | Except.error _ =>
      ([Event.findModule (some it.modHandle), Event.getProc "stop_rpc"], none)
    | Except.ok none =>
      ([Event.findModule (some it.modHandle), Event.getProc "stop_rpc"], none)
    | Except.ok (some _) =>
      let callEvents :=
        match it.stopCall with
        | Except.ok _ => [Event.rpcCall "stop_rpc"]
        | Except.error _ => [Event.rpcCall "stop_rpc", Event.logStopRpcError]
      match it.ejectRes with
      | Except.error _ =>
        (Event.findModule (some it.modHandle) :: Event.getProc "stop_rpc" ::
          callEvents ++ [Event.eject it.modHandle], none)
      | Except.ok _ =>
        (Event.findModule (some it.modHandle) :: Event.getProc "stop_rpc" ::
          callEvents ++ [Event.eject it.modHandle] ++ (cleanupLoop rest).1,
          (cleanupLoop rest).2)

/-- The events of one successful cleanup iteration. -/
def staleIterTrace (it : StaleIter) : List Event :=
  Event.findModule (some it.modHandle) :: Event.getProc "stop_rpc" ::
    (match it.stopCall with
     | Except.ok _ => [Event.rpcCall "stop_rpc"]
     | Except.error _ => [Event.rpcCall "stop_rpc", Event.logStopRpcError]) ++
    [Event.eject it.modHandle]

/-- Oracle results for the external calls of one `hook_spotify` attempt. -/
structure HookEnv where
  spotifyPid : Nat
  staleProbes : List StaleIter
  fsEnv : FilterEnv
  blockerEnv : BlockerEnv
  injectRes : Except SyringeError ModuleHandle
  getStartRpc : Except SyringeError (Option Unit)
  startRpcCall : Except SyringeError SocketAddr
  newTaskId : Nat
  tryToOwnedOk : Bool
  unhookEnv : UnhookEnv

/-- The pipeline of `hook_spotify` after the (possible) initial unhook
(main.rs lines 229-292): stale cleanup, filter-config resolution
(`unwrap`), blocker resolution (`unwrap`), `inject` (`unwrap`),
`start_rpc` lookup (`unwrap().unwrap()`) and call (`unwrap`), rpc-task
spawn, then `try_to_owned().unwrap()` and installation of the new
`HookState`.  `self` stays `Unhooked` until the final installation. -/
def hookPipeline (env : HookEnv) : Run :=
  match cleanupLoop env.staleProbes with
  | (ctr, none) => ⟨AppState.Unhooked, tagUnhooked ctr, RunResult.panicked⟩
  | (ctr, some _) =>
    let t1 := ctr ++ [Event.resolveFilterConfig]
    match (find_and_load_filter_config env.fsEnv).result with
    | Except.error _ => ⟨AppState.Unhooked, tagUnhooked t1, RunResult.panicked⟩
    | Except.ok _ =>
      let t2 := t1 ++ [Event.resolveBlocker]
      match find_and_load_blocker env.blockerEnv with
      | Except.error _ => ⟨AppState.Unhooked, tagUnhooked t2, RunResult.panicked⟩
      | Except.ok payloadPath =>
        let t3 := t2 ++ [Event.inject payloadPath]
        match env.injectRes with
        | Except.error _ => ⟨AppState.Unhooked, tagUnhooked t3, RunResult.panicked⟩
        | Except.ok handle =>
          let t4 := t3 ++ [Event.getProc "start_rpc"]
          match env.getStartRpc with
          | Except.error _ => ⟨AppState.Unhooked, tagUnhooked t4, RunResult.panicked⟩
          | Except.ok none => ⟨AppState.Unhooked, tagUnhooked t4, RunResult.panicked⟩
          | Except.ok (some _) =>
            let t5 := t4 ++ [Event.rpcCall "start_rpc"]
            match env.startRpcCall with
            | Except.error _ => ⟨AppState.Unhooked, tagUnhooked t5, RunResult.panicked⟩
            | Except.ok _ =>
              let t6 := t5 ++ [Event.spawnTask]
              if env.tryToOwnedOk then
                ⟨AppState.Hooked ⟨env.spotifyPid, handle, env.newTaskId⟩,
                  tagUnhooked t6, RunResult.ok⟩
              else ⟨AppState.Unhooked, tagUnhooked t6, RunResult.panicked⟩

/-- `hook_spotify` (main.rs line 224): when currently `Hooked`, run
`unhook_spotify` to completion first (a panic there propagates); then run
the pipeline. -/
def hook_spotify (env : HookEnv) (s : AppState) : Run :=
  match s with
  | AppState.Unhooked => hookPipeline env
  | AppState.Hooked _ =>
    match (unhook_spotify env.unhookEnv s).result with
    | RunResult.panicked => unhook_spotify env.unhookEnv s
    | RunResult.ok =>
      ⟨(hookPipeline env).state,
        (unhook_spotify env.unhookEnv s).trace ++ (hookPipeline env).trace,
        (hookPipeline env).result⟩

/-- Number of live `ActiveHook`s held by a state. -/
def activeHooks : AppState → Nat
  | AppState.Hooked _ => 1
  | AppState.Unhooked => 0

/-- The state after a sequence of `Started` events with no intervening
`Stopped`: each event triggers one `hook_spotify` call (main.rs lines
200-210). -/
def runStartedSeq (envs : List HookEnv) (s : AppState) : AppState :=
  envs.foldl (fun st e => (hook_spotify e st).state) s

/-- Whether an event is an `Injector.eject` call. -/
def isEject : Event → Bool
  | Event.eject _ => true
  | _ => false

/-- Whether a file-system event writes a file. -/
def isFsWrite : FsEvent → Bool
  | FsEvent.wroteDefault _ => true
  | FsEvent.readAttempt _ => false

/-- Whether an `Except` holds a success value. -/
def isOkE {ε α : Type} : Except ε α → Bool
  | Except.ok _ => true
  | Except.error _ => false

/-- All pipeline steps of one `hook_spotify` attempt succeed: the stale
cleanup completes, filter config and blocker resolve, `inject` returns a
handle, the `start_rpc` lookup finds the procedure and its call returns
an address, and `try_to_owned` succeeds. -/
def hookStepsOk (env : HookEnv) : Bool :=
  (cleanupLoop env.staleProbes).2.isSome
  && isOkE (find_and_load_filter_config env.fsEnv).result
  && isOkE (find_and_load_blocker env.blockerEnv)
  && isOkE env.injectRes
  && (match env.getStartRpc with
      | Except.ok (some _) => true
      | _ => false)
  && isOkE env.startRpcCall
  && env.tryToOwnedOk

/- ### Spec-side resolver, for comparison with the source (claim C8) -/

/-- Spec-side value of the explicit-override layer: parse the file at the
override path when readable, otherwise create it from the bundled default
and parse that (create-if-absent applies at this layer). -/
def specLayerOverride (env : FilterEnv) : Option FilterConfig :=
  match env.argsFilters with
  | none => none
  | some p =>
    match env.readFile p with
    | some s => env.parseToml s
    | none =>
      if env.writeOk p then env.parseToml env.defaultFilterStr else none

/-- Spec-side value of the beside-the-binary layer: parse the sibling
`filter.toml` when readable; this layer is read-only. -/
def specLayerSibling (env : FilterEnv) : Option FilterConfig :=
  match env.siblingDir with
  | none => none
  | some dir =>
    match env.readFile (joinPath dir DEFAULT_FILTER_FILE_NAME) with
    | some s => env.parseToml s
    | none => none

/-- Layered resolution as worded by the amended claim C8: explicit
override (create-if-absent), then beside the binary (read-only), then the
bundled default parsed from memory; fails only when every layer fails. -/
def filterConfigResolverSpec (env : FilterEnv) : Except IoErrorKind FilterConfig :=
  match specLayerOverride env with
  | some filters => Except.ok filters
  | none =>
    match specLayerSibling env with
    | some filters => Except.ok filters
    | none =>
      match env.parseToml env.defaultFilterStr with
      | some filters => Except.ok filters
      | none => Except.error IoErrorKind.InvalidData

/- ### Helper lemmas -/

theorem tagUnhooked_map_fst (es : List Event) : (tagUnhooked es).map Prod.fst = es := by
  induction es with
  | nil => rfl
  | cons e es ih =>
    simp only [tagUnhooked, List.map_map] at ih ⊢
    simp [ih]

theorem tagUnhooked_map_snd (es : List Event) :
    (tagUnhooked es).map Prod.snd = List.replicate es.length AppState.Unhooked := by
  induction es with
  | nil => rfl
  | cons e es ih => simpa [tagUnhooked, List.replicate_succ] using ih

theorem unhook_state_eq (env : UnhookEnv) (s : AppState) :
    (unhook_spotify env s).state = AppState.Unhooked := by
  cases s <;> rfl

theorem unhook_trace_tagged (env : UnhookEnv) (s : AppState) :
    (unhook_spotify env s).trace.map Prod.snd
      = List.replicate (unhook_spotify env s).trace.length AppState.Unhooked := by
  cases s with
  | Unhooked => rfl
  | Hooked hs =>
    show (tagUnhooked _).map Prod.snd = List.replicate (tagUnhooked _).length _
    rw [tagUnhooked_map_snd]
    simp [tagUnhooked]

theorem hookPipeline_panicked_state (env : HookEnv) :
    (hookPipeline env).state = AppState.Unhooked ∨ (hookPipeline env).result = RunResult.ok := by
  unfold hookPipeline
  repeat' split
  all_goals first | exact Or.inl rfl | exact Or.inr rfl

theorem activeHooks_le_one (s : AppState) : activeHooks s ≤ 1 := by
  cases s <;> simp [activeHooks]

/- ### Claim theorems -/

/-- C5: `unhook_spotify` called while the state is already `Unhooked` is a
no-op: it performs zero Injector calls (empty trace, so no remote
procedure lookup and no eject) and leaves the state unchanged as
`Unhooked`, completing normally. -/
theorem unhook_idempotent_noop (env : UnhookEnv) :
    unhook_spotify env AppState.Unhooked
      = ⟨AppState.Unhooked, [], RunResult.ok⟩ := rfl

/-- C10: `unhook_spotify` replaces the state with `Unhooked` at its very
entry, so the state paired with every traced teardown action is
`Unhooked`, and the state after the call is `Unhooked` regardless of the
starting state and of how teardown ended. -/
theorem unhook_state_unhooked_throughout (env : UnhookEnv) (s : AppState) :
    (unhook_spotify env s).state = AppState.Unhooked
    ∧ (unhook_spotify env s).trace.map Prod.snd
        = List.replicate (unhook_spotify env s).trace.length AppState.Unhooked :=
  ⟨unhook_state_eq env s, unhook_trace_tagged env s⟩

/-- C4: the teardown actions of `unhook_spotify` from `Hooked` occur in
the strict order: `stop_rpc` lookup, `stop_rpc` call, join of the rpc
task, liveness check, eject — every run's event list is a prefix of that
sequence, so the stop-channel call precedes the join and the join
precedes the liveness check that decides on ejection. -/
theorem unhook_teardown_order (env : UnhookEnv) (hs : HookState) :
    ∃ rest, ((unhook_spotify env (AppState.Hooked hs)).trace.map Prod.fst) ++ rest
      = [Event.getProc "stop_rpc", Event.rpcCall "stop_rpc", Event.joinTask,
         Event.checkAlive, Event.eject hs.payload] := by
  show ∃ rest, ((tagUnhooked (unhook_inner env hs).1).map Prod.fst) ++ rest = _
  rw [tagUnhooked_map_fst]
  rcases env with ⟨g, c, j, a, er⟩
  unfold unhook_inner
  cases g with
  | error e =>
    exact ⟨[Event.rpcCall "stop_rpc", Event.joinTask, Event.checkAlive,
      Event.eject hs.payload], rfl⟩
  | ok op =>
    cases op with
    | none =>
      exact ⟨[Event.rpcCall "stop_rpc", Event.joinTask, Event.checkAlive,
        Event.eject hs.payload], rfl⟩
    | some u =>
      cases c with
      | error e => exact ⟨[Event.joinTask, Event.checkAlive, Event.eject hs.payload], rfl⟩
      | ok u2 =>
        cases j with
        | false => exact ⟨[Event.checkAlive, Event.eject hs.payload], rfl⟩
        | true =>
          cases a with
          | false => exact ⟨[Event.eject hs.payload], rfl⟩
          | true => cases er with
            | error e => exact ⟨[], rfl⟩
            | ok u3 => exact ⟨[], rfl⟩

/-- C7: if the target process is not alive at unhook time, no run of
`unhook_spotify` contains an `Injector.eject` call. -/
theorem dead_process_no_eject (env : UnhookEnv) (s : AppState)
    (h : env.isAlive = false) :
    (((unhook_spotify env s).trace.map Prod.fst).all fun e => !isEject e) = true := by
  cases s with
  | Unhooked => rfl
  | Hooked hs =>
    show (((tagUnhooked (unhook_inner env hs).1).map Prod.fst).all fun e => !isEject e) = true
    rw [tagUnhooked_map_fst]
    rcases env with ⟨g, c, j, a, er⟩
    have ha : a = false := h
    subst ha
    unfold unhook_inner
    cases g with
    | error e => rfl
    | ok op =>
      cases op with
      | none => rfl
      | some u =>
        cases c with
        | error e => rfl
        | ok u2 => cases j <;> rfl

/-- Witness for C7 at a concrete environment with a dead target. -/
def c7Env : UnhookEnv :=
  ⟨Except.ok (some ()), Except.ok (), true, false, Except.ok ()⟩

theorem dead_process_no_eject_witness :
    c7Env.isAlive = false
    ∧ (((unhook_spotify c7Env (AppState.Hooked ⟨1, 2, 3⟩)).trace.map Prod.fst).all
        fun e => !isEject e) = true :=
  ⟨rfl, dead_process_no_eject c7Env (AppState.Hooked ⟨1, 2, 3⟩) rfl⟩

/-- C6: a benign eject failure (`ProcessInaccessible` or
`ModuleInaccessible`) during `unhook_spotify` is swallowed: the call
completes without panicking; and in every run of `unhook_spotify`, over
any environment and start state, the final state is `Unhooked`, so no
`ActiveHook` is ever leaked. -/
theorem unhook_benign_eject_absorbed (env : UnhookEnv) (s : AppState)
    (hb : env.ejectRes = Except.error SyringeError.ProcessInaccessible
        ∨ env.ejectRes = Except.error SyringeError.ModuleInaccessible)
    (hp : env.getStopRpc = Except.ok (some ()))
    (hc : env.stopRpcCall = Except.ok ())
    (hj : env.joinOk = true) :
    (unhook_spotify env s).result = RunResult.ok
    ∧ (unhook_spotify env s).state = AppState.Unhooked
    ∧ ∀ (e : UnhookEnv) (t : AppState), (unhook_spotify e t).state = AppState.Unhooked := by
  refine ⟨?_, unhook_state_eq env s, fun e t => unhook_state_eq e t⟩
  cases s with
  | Unhooked => rfl
  | Hooked hs =>
    show unhookResultOf (unhook_inner env hs).2 = RunResult.ok
    rcases env with ⟨g, c, j, a, er⟩
    have hg : g = Except.ok (some ()) := hp
    have hcc : c = Except.ok () := hc
    have hjj : j = true := hj
    subst hg; subst hcc; subst hjj
    unfold unhook_inner
    cases a with
    | false => rfl
    | true =>
      rcases hb with hb | hb
      · have he : er = Except.error SyringeError.ProcessInaccessible := hb
        subst he; rfl
      · have he : er = Except.error SyringeError.ModuleInaccessible := hb
        subst he; rfl

/-- Witness for C6 at a concrete environment whose eject fails with
`ProcessInaccessible`. -/
def c6Env : UnhookEnv :=
  ⟨Except.ok (some ()), Except.ok (), true, true,
    Except.error SyringeError.ProcessInaccessible⟩

theorem unhook_benign_eject_absorbed_witness :
    (c6Env.ejectRes = Except.error SyringeError.ProcessInaccessible
      ∨ c6Env.ejectRes = Except.error SyringeError.ModuleInaccessible)
    ∧ ((unhook_spotify c6Env (AppState.Hooked ⟨1, 2, 3⟩)).result = RunResult.ok
        ∧ (unhook_spotify c6Env (AppState.Hooked ⟨1, 2, 3⟩)).state = AppState.Unhooked
        ∧ ∀ (e : UnhookEnv) (t : AppState),
            (unhook_spotify e t).state = AppState.Unhooked) :=
  ⟨Or.inl rfl,
    unhook_benign_eject_absorbed c6Env (AppState.Hooked ⟨1, 2, 3⟩)
      (Or.inl rfl) rfl rfl rfl⟩

/-- C1: a `hook_spotify` call that finds the state `Hooked` first runs
`unhook_spotify` to completion — its trace begins with the complete
unhook trace (a panic there aborts with no further events) — and after
any sequence of Started events without an intervening Stopped, each
processed by `hook_spotify`, at most one `ActiveHook` exists. -/
theorem hook_retires_previous_hook (env : HookEnv) (hs : HookState) :
    (∃ rest, (hook_spotify env (AppState.Hooked hs)).trace
        = (unhook_spotify env.unhookEnv (AppState.Hooked hs)).trace ++ rest)
    ∧ (∀ (envs : List HookEnv) (s0 : AppState),
        activeHooks (runStartedSeq envs s0) ≤ 1) := by
  constructor
  · cases hu : (unhook_spotify env.unhookEnv (AppState.Hooked hs)).result with
    | ok =>
      refine ⟨(hookPipeline env).trace, ?_⟩
      simp [hook_spotify, hu]
    | panicked =>
      refine ⟨[], ?_⟩
      simp [hook_spotify, hu]
  · intro envs s0
    exact activeHooks_le_one _

/-- C2, counterexample: with an environment in which the filter config
cannot be resolved (all layers fail to parse), `hook_spotify` does not
convert the failure into a log record and continue — the `unwrap` panics
and the panic propagates out of the call, which stops right after the
filter-config resolution step. -/
def c2Env : HookEnv :=
  { spotifyPid := 1
    staleProbes := []
    fsEnv := ⟨none, none, fun _ => none, fun _ => false, fun _ => none, "d"⟩
    blockerEnv := ⟨none, ⟨none, false⟩, none, ⟨none, false⟩, none, ⟨none, false⟩, 0⟩
    injectRes := Except.ok 7
    getStartRpc := Except.ok (some ())
    startRpcCall := Except.ok 9000
    newTaskId := 1
    tryToOwnedOk := true
    unhookEnv := ⟨Except.ok (some ()), Except.ok (), true, true, Except.ok ()⟩ }

theorem hook_error_propagates_cex :
    (hook_spotify c2Env AppState.Unhooked).result = RunResult.panicked
    ∧ (hook_spotify c2Env AppState.Unhooked).trace.map Prod.fst
        = [Event.findModule none, Event.resolveFilterConfig] := ⟨rfl, rfl⟩

/-- Unhook oracle with a non-benign ejection error, reaching the `todo!`
branch. -/
def c2UnhookErrEnv : UnhookEnv :=
  ⟨Except.ok (some ()), Except.ok (), true, true,
    Except.error (SyringeError.other 0)⟩

/-- C2 (amended): failures inside hook()/unhook() are not caught and
logged at the controller boundary: `hook_spotify` ends in a panic
exactly when some pipeline step fails (stale cleanup, filter-config
resolution, blocker resolution, injection, `start_rpc` lookup, its call,
or the handle ownership transfer), so a hard failure of any of steps 3-7
propagates out of hook() as a panic; whenever `hook_spotify` panics the
state is left `Unhooked`; a failing stale stop-channel call alone is
absorbed (that cleanup iteration still completes); and an ejection error
reached during `unhook_spotify` is absorbed exactly when it is benign
(`ProcessInaccessible`/`ModuleInaccessible`) — any other ejection error
panics through the `todo!` branch. -/
theorem hook_failure_panics_leaves_unhooked (env : HookEnv) (s : AppState)
    (uenv : UnhookEnv) (hs : HookState) (e : SyringeError)
    (hp : uenv.getStopRpc = Except.ok (some ()))
    (hc : uenv.stopRpcCall = Except.ok ())
    (hj : uenv.joinOk = true)
    (ha : uenv.isAlive = true)
    (he : uenv.ejectRes = Except.error e) :
    ((hook_spotify env AppState.Unhooked).result = RunResult.panicked
      ↔ hookStepsOk env = false)
    ∧ ((hook_spotify env s).result = RunResult.panicked →
        (hook_spotify env s).state = AppState.Unhooked)
    ∧ (∀ (it : StaleIter) (rest : List StaleIter),
        it.getStopRpc = Except.ok (some ()) → it.ejectRes = Except.ok () →
        (cleanupLoop (it :: rest)).2 = (cleanupLoop rest).2)
    ∧ ((unhook_spotify uenv (AppState.Hooked hs)).result = RunResult.ok
      ↔ (e = SyringeError.ProcessInaccessible
        ∨ e = SyringeError.ModuleInaccessible)) := by
  refine ⟨?_, ?_, ?_, ?_⟩
  · show (hookPipeline env).result = RunResult.panicked ↔ hookStepsOk env = false
    unfold hookPipeline hookStepsOk isOkE
    rcases hcl : cleanupLoop env.staleProbes with ⟨ctr, o⟩
    cases o with
    | none => simp
    | some u =>
      cases hf : (find_and_load_filter_config env.fsEnv).result with
      | error k => simp
      | ok cfg =>
        cases hb : find_and_load_blocker env.blockerEnv with
        | error k => simp
        | ok pth =>
          cases hi : env.injectRes with
          | error e2 => simp
          | ok hdl =>
            cases hg : env.getStartRpc with
            | error e2 => simp
            | ok op =>
              cases op with
              | none => simp
              | some uu =>
                cases hsr : env.startRpcCall with
                | error e2 => simp
                | ok addr =>
                  cases ht : env.tryToOwnedOk <;> simp
  · intro h
    cases s with
    | Unhooked =>
      show (hookPipeline env).state = AppState.Unhooked
      rcases hookPipeline_panicked_state env with h3 | h3
      · exact h3
      · have hpp : (hookPipeline env).result = RunResult.panicked := h
        rw [hpp] at h3
        cases h3
    | Hooked hs2 =>
      cases hu : (unhook_spotify env.unhookEnv (AppState.Hooked hs2)).result with
      | panicked =>
        have heq : hook_spotify env (AppState.Hooked hs2)
            = unhook_spotify env.unhookEnv (AppState.Hooked hs2) := by
          simp [hook_spotify, hu]
        rw [heq]
        exact unhook_state_eq _ _
      | ok =>
        have hst : (hook_spotify env (AppState.Hooked hs2)).state
            = (hookPipeline env).state := by
          simp [hook_spotify, hu]
        have hres : (hook_spotify env (AppState.Hooked hs2)).result
            = (hookPipeline env).result := by
          simp [hook_spotify, hu]
        rw [hst]
        rcases hookPipeline_panicked_state env with h3 | h3
        · exact h3
        · rw [h] at hres
          rw [← hres] at h3
          cases h3
  · intro it rest g2 e2
    conv_lhs => rw [cleanupLoop]
    rw [g2, e2]
  · rcases uenv with ⟨g, c, j, a, er⟩
    have hg : g = Except.ok (some ()) := hp
    have hcc : c = Except.ok () := hc
    have hjj : j = true := hj
    have haa : a = true := ha
    have herr : er = Except.error e := he
    subst hg; subst hcc; subst hjj; subst haa; subst herr
    show unhookResultOf (unhook_inner _ hs).2 = RunResult.ok ↔ _
    cases e with
    | ProcessInaccessible => simp [unhook_inner, unhookResultOf]
    | ModuleInaccessible => simp [unhook_inner, unhookResultOf]
    | other n => simp [unhook_inner, unhookResultOf]

/-- Witness for the amended C2: the filter-config step fails in `c2Env`
(so the hook panics), and `c2UnhookErrEnv` carries a non-benign ejection
error (so the unhook hits `todo!`). -/
theorem hook_failure_panics_leaves_unhooked_witness :
    (c2UnhookErrEnv.getStopRpc = Except.ok (some ())
      ∧ c2UnhookErrEnv.stopRpcCall = Except.ok ()
      ∧ c2UnhookErrEnv.joinOk = true
      ∧ c2UnhookErrEnv.isAlive = true
      ∧ c2UnhookErrEnv.ejectRes = Except.error (SyringeError.other 0))
    ∧ (((hook_spotify c2Env AppState.Unhooked).result = RunResult.panicked
        ↔ hookStepsOk c2Env = false)
      ∧ ((hook_spotify c2Env AppState.Unhooked).result = RunResult.panicked →
          (hook_spotify c2Env AppState.Unhooked).state = AppState.Unhooked)
      ∧ (∀ (it : StaleIter) (rest : List StaleIter),
          it.getStopRpc = Except.ok (some ()) → it.ejectRes = Except.ok () →
          (cleanupLoop (it :: rest)).2 = (cleanupLoop rest).2)
      ∧ ((unhook_spotify c2UnhookErrEnv (AppState.Hooked ⟨1, 2, 3⟩)).result
            = RunResult.ok
        ↔ (SyringeError.other 0 = SyringeError.ProcessInaccessible
          ∨ SyringeError.other 0 = SyringeError.ModuleInaccessible))) :=
  ⟨⟨rfl, rfl, rfl, rfl, rfl⟩,
    hook_failure_panics_leaves_unhooked c2Env AppState.Unhooked c2UnhookErrEnv
      ⟨1, 2, 3⟩ (SyringeError.other 0) rfl rfl rfl rfl rfl⟩

/-- C3, counterexample: one stale blocker whose ejection fails.  The code
does not log the eject failure and re-probe: `eject(..).unwrap()` panics,
so the run ends right after the eject attempt, with no further
`find_module` probe. -/
def c3Env : HookEnv :=
  { spotifyPid := 1
    staleProbes := [⟨5, Except.ok (some ()), Except.ok (),
      Except.error (SyringeError.other 0)⟩]
    fsEnv := ⟨none, none, fun _ => none, fun _ => false, fun _ => some ⟨[], []⟩, "d"⟩
    blockerEnv := ⟨some "b.dll", ⟨some ⟨true, 10⟩, true⟩, none, ⟨none, false⟩,
      none, ⟨none, false⟩, 10⟩
    injectRes := Except.ok 7
    getStartRpc := Except.ok (some ())
    startRpcCall := Except.ok 9000
    newTaskId := 2
    tryToOwnedOk := true
    unhookEnv := ⟨Except.ok (some ()), Except.ok (), true, true, Except.ok ()⟩ }

theorem stale_eject_failure_panics_cex :
    (hook_spotify c3Env AppState.Unhooked).result = RunResult.panicked
    ∧ (hook_spotify c3Env AppState.Unhooked).trace.map Prod.fst
        = [Event.findModule (some 5), Event.getProc "stop_rpc",
           Event.rpcCall "stop_rpc", Event.eject 5] := ⟨rfl, rfl⟩

/-- C3 (amended): when every stale module's `stop_rpc` lookup and ejection
succeed, the cleanup loop performs, per iteration, exactly one probe, one
`stop_rpc` lookup, one `stop_rpc` call (a call failure is logged and is
not fatal) and one eject, and terminates exactly when a probe reports no
module left — not via any retry counter.  (A failing eject instead
panics, as the counterexample shows.) -/
theorem cleanup_loop_shape (stales : List StaleIter)
    (h : ∀ it ∈ stales,
      it.getStopRpc = Except.ok (some ()) ∧ it.ejectRes = Except.ok ()) :
    cleanupLoop stales
      = ((stales.map staleIterTrace).flatten ++ [Event.findModule none], some ()) := by
  induction stales with
  | nil => rfl
  | cons it rest ih =>
    obtain ⟨h1, h2⟩ := h it (List.mem_cons_self it rest)
    have ih2 := ih (fun x hx => h x (List.mem_cons_of_mem it hx))
    cases hsc : it.stopCall with
    | ok u =>
      simp [cleanupLoop, h1, h2, hsc, ih2, staleIterTrace, List.append_assoc]
    | error e =>
      simp [cleanupLoop, h1, h2, hsc, ih2, staleIterTrace, List.append_assoc]

/-- Witness stale list for the amended C3: two stale modules, the first
with a failing (logged, non-fatal) `stop_rpc` call. -/
def c3Stales : List StaleIter :=
  [⟨3, Except.ok (some ()), Except.error (SyringeError.other 1), Except.ok ()⟩,
   ⟨4, Except.ok (some ()), Except.ok (), Except.ok ()⟩]

theorem cleanup_loop_shape_witness :
    (∀ it ∈ c3Stales,
      it.getStopRpc = Except.ok (some ()) ∧ it.ejectRes = Except.ok ())
    ∧ cleanupLoop c3Stales
        = ((c3Stales.map staleIterTrace).flatten ++ [Event.findModule none], some ()) := by
  have h : ∀ it ∈ c3Stales,
      it.getStopRpc = Except.ok (some ()) ∧ it.ejectRes = Except.ok () := by
    intro it hit
    simp only [c3Stales, List.mem_cons, List.not_mem_nil, or_false] at hit
    rcases hit with rfl | rfl
    · exact ⟨rfl, rfl⟩
    · exact ⟨rfl, rfl⟩
  exact ⟨h, cleanup_loop_shape c3Stales h⟩

/-- C8, counterexample: with no override argument, a missing (but
writable) `filter.toml` beside the binary, and a parseable bundled
default, the resolver succeeds from the bundled default WITHOUT creating
the file beside the binary: there is no create-if-absent behaviour at
that layer, contrary to the claim's "create-if-absent at each layer". -/
def c8Env : FilterEnv :=
  ⟨none, some "C:\\app", fun _ => none, fun _ => true,
    fun s => if s = "DEFAULTS" then some ⟨["a"], ["b"]⟩ else none, "DEFAULTS"⟩

theorem filter_config_no_create_at_sibling_cex :
    (find_and_load_filter_config c8Env).result = Except.ok ⟨["a"], ["b"]⟩
    ∧ (find_and_load_filter_config c8Env).events
        = [FsEvent.readAttempt "C:\\app\\filter.toml"]
    ∧ ((find_and_load_filter_config c8Env).events.all fun e => !isFsWrite e) = true := by
  refine ⟨rfl, ?_, rfl⟩
  decide

theorem sibling_tail_result (env : FilterEnv) :
    (filter_config_sibling_then_default env).result
      = match specLayerSibling env with
        | some c => Except.ok c
        | none =>
          match env.parseToml env.defaultFilterStr with
          | some c => Except.ok c
          | none => Except.error IoErrorKind.InvalidData := by
  unfold filter_config_sibling_then_default specLayerSibling
    try_load_filter_config_from_path try_load_filter_config_from_str
  cases hsd : env.siblingDir with
  | none => cases hpt : env.parseToml env.defaultFilterStr <;> simp [hpt]
  | some d =>
    cases hrf : env.readFile (joinPath d DEFAULT_FILTER_FILE_NAME) with
    | none => cases hpt : env.parseToml env.defaultFilterStr <;> simp [hrf, hpt]
    | some s =>
      cases hpts : env.parseToml s with
      | some c => simp [hrf, hpts]
      | none => cases hpt : env.parseToml env.defaultFilterStr <;> simp [hrf, hpts, hpt]

theorem sibling_tail_no_writes (env : FilterEnv) :
    ((filter_config_sibling_then_default env).events.all fun e => !isFsWrite e) = true := by
  unfold filter_config_sibling_then_default try_load_filter_config_from_path
    try_load_filter_config_from_str
  cases hsd : env.siblingDir with
  | none => cases hpt : env.parseToml env.defaultFilterStr <;> simp [hpt, isFsWrite]
  | some d =>
    cases hrf : env.readFile (joinPath d DEFAULT_FILTER_FILE_NAME) with
    | none => cases hpt : env.parseToml env.defaultFilterStr <;> simp [hrf, hpt, isFsWrite]
    | some s =>
      cases hpts : env.parseToml s with
      | some c => simp [hrf, hpts, isFsWrite]
      | none => cases hpt : env.parseToml env.defaultFilterStr <;> simp [hrf, hpts, hpt, isFsWrite]

theorem all_of_no_writes (l : List FsEvent) (f : FsEvent → Bool)
    (hf : ∀ p, f (FsEvent.readAttempt p) = true)
    (h : (l.all fun e => !isFsWrite e) = true) : l.all f = true := by
  induction l with
  | nil => rfl
  | cons e es ih =>
    simp only [List.all_cons, Bool.and_eq_true] at h ⊢
    obtain ⟨h1, h2⟩ := h
    refine ⟨?_, ih h2⟩
    cases e with
    | readAttempt p => exact hf p
    | wroteDefault p => simp [isFsWrite] at h1

/-- C8 (amended): the resolver performs the layered lookup in the order
explicit override, then beside the binary, then the bundled default —
its result equals the layered specification in which create-if-absent
applies only at the explicit override layer — and every file it writes
is at the explicit override path. -/
theorem filter_config_layered_resolution (env : FilterEnv) :
    (find_and_load_filter_config env).result = filterConfigResolverSpec env
    ∧ ((find_and_load_filter_config env).events.all fun e =>
        match e with
        | FsEvent.wroteDefault p => env.argsFilters == some p
        | FsEvent.readAttempt _ => true) = true := by
  have tr := sibling_tail_result env
  have tw := sibling_tail_no_writes env
  unfold find_and_load_filter_config filterConfigResolverSpec specLayerOverride
    try_load_filter_config_from_path try_load_filter_config_from_str
  cases haf : env.argsFilters with
  | none =>
    refine ⟨tr, ?_⟩
    exact all_of_no_writes _ _ (fun p => rfl) tw
  | some cp =>
    dsimp only
    cases hrf : env.readFile cp with
    | some s =>
      dsimp only
      cases hpts : env.parseToml s with
      | some c => exact ⟨rfl, rfl⟩
      | none =>
        dsimp only
        rcases hfs : filter_config_sibling_then_default env with ⟨r, ev⟩
        rw [hfs] at tr tw
        constructor
        · exact tr
        · show (([FsEvent.readAttempt cp] ++ ev).all _) = true
          rw [List.all_append]
          simp only [Bool.and_eq_true]
          exact ⟨rfl, all_of_no_writes _ _ (fun p => rfl) tw⟩
    | none =>
      cases hwo : env.writeOk cp with
      | true =>
        cases hpt : env.parseToml env.defaultFilterStr with
        | some c =>
          refine ⟨rfl, ?_⟩
          show (([FsEvent.readAttempt cp, FsEvent.wroteDefault cp]).all _) = true
          simp
        | none =>
          rcases hfs : filter_config_sibling_then_default env with ⟨r, ev⟩
          rw [hfs] at tr tw
          rw [hpt] at tr
          constructor
          · exact tr
          · show (([FsEvent.readAttempt cp, FsEvent.wroteDefault cp] ++ ev).all _) = true
            rw [List.all_append]
            simp only [Bool.and_eq_true]
            refine ⟨?_, all_of_no_writes _ _ (fun p => rfl) tw⟩
            simp
      | false =>
        rcases hfs : filter_config_sibling_then_default env with ⟨r, ev⟩
        rw [hfs] at tr tw
        constructor
        · exact tr
        · show (([FsEvent.readAttempt cp] ++ ev).all _) = true
          rw [List.all_append]
          simp only [Bool.and_eq_true]
          exact ⟨rfl, all_of_no_writes _ _ (fun p => rfl) tw⟩

/-- C9: when the file at the explicit override path exists but fails to
parse, the resolver does not abort — its result is that of the remaining
layers — and the attempt still succeeds from the bundled default both
when the sibling file is absent (or the sibling layer is skipped) and
when the sibling file also exists but fails to parse. -/
theorem filter_config_parse_failure_falls_through (env : FilterEnv)
    (p : Path) (s : String)
    (h1 : env.argsFilters = some p) (h2 : env.readFile p = some s)
    (h3 : env.parseToml s = none) :
    (find_and_load_filter_config env).result
      = (filter_config_sibling_then_default env).result
    ∧ (∀ c, env.parseToml env.defaultFilterStr = some c →
        (∀ d, env.siblingDir = some d →
          env.readFile (joinPath d DEFAULT_FILTER_FILE_NAME) = none) →
        (find_and_load_filter_config env).result = Except.ok c)
    ∧ (∀ c d t, env.siblingDir = some d →
        env.readFile (joinPath d DEFAULT_FILTER_FILE_NAME) = some t →
        env.parseToml t = none →
        env.parseToml env.defaultFilterStr = some c →
        (find_and_load_filter_config env).result = Except.ok c) := by
  have key : (find_and_load_filter_config env).result
      = (filter_config_sibling_then_default env).result := by
    unfold find_and_load_filter_config try_load_filter_config_from_path
      try_load_filter_config_from_str
    rw [h1]
    dsimp only
    rw [h2]
    dsimp only
    rw [h3]
  refine ⟨key, ?_, ?_⟩
  · intro c hc hd
    rw [key]
    unfold filter_config_sibling_then_default try_load_filter_config_from_path
      try_load_filter_config_from_str
    cases hs : env.siblingDir with
    | none =>
      dsimp only
      rw [hc]
    | some d =>
      have hrd := hd d hs
      dsimp only
      rw [hrd]
      dsimp only
      rw [hc]
      rfl
  · intro c d t hsd hst hpt hc
    rw [key, sibling_tail_result env]
    have hsl : specLayerSibling env = none := by
      unfold specLayerSibling
      rw [hsd]
      dsimp only
      rw [hst]
      dsimp only
      rw [hpt]
    rw [hsl]
    dsimp only
    rw [hc]

/-- Witness environment for C9: override file present but invalid TOML,
sibling file also present but invalid TOML, parseable bundled default. -/
def c9Env : FilterEnv :=
  ⟨some "X", some "S",
    fun q =>
      if q = "X" then some "bad"
      else if q = joinPath "S" DEFAULT_FILTER_FILE_NAME then some "alsobad"
      else none,
    fun _ => false, fun t => if t = "GOOD" then some ⟨["a"], []⟩ else none, "GOOD"⟩

theorem filter_config_parse_failure_falls_through_witness :
    (c9Env.argsFilters = some "X"
      ∧ c9Env.readFile "X" = some "bad"
      ∧ c9Env.parseToml "bad" = none)
    ∧ ((find_and_load_filter_config c9Env).result
        = (filter_config_sibling_then_default c9Env).result)
    ∧ (c9Env.siblingDir = some "S"
      ∧ c9Env.readFile (joinPath "S" DEFAULT_FILTER_FILE_NAME) = some "alsobad"
      ∧ c9Env.parseToml "alsobad" = none
      ∧ c9Env.parseToml c9Env.defaultFilterStr = some ⟨["a"], []⟩)
    ∧ (find_and_load_filter_config c9Env).result = Except.ok ⟨["a"], []⟩ :=
  ⟨⟨rfl, by decide, by decide⟩,
    (filter_config_parse_failure_falls_through c9Env "X" "bad"
      rfl (by decide) (by decide)).1,
    ⟨rfl, by decide, by decide, by decide⟩,
    (filter_config_parse_failure_falls_through c9Env "X" "bad"
      rfl (by decide) (by decide)).2.2 ⟨["a"], []⟩ "S" "alsobad"
      rfl (by decide) (by decide) (by decide)⟩

end BurntSushi
